import Mathlib

/-!
Verification of the FastAPI + Prometheus monitoring service (src/app/main.py).

The repository declares two counters (request_count, post_request_count) and
one gauge (random_gauge), and three route handlers:
  - GET /        (root):   increments request_count, sets random_gauge to
                           time.time() % 60, returns a fixed greeting;
  - POST /submit (submit): rejects an empty payload with HTTP 400,
                           otherwise increments post_request_count and echoes
                           the payload in a received_data envelope;
  - GET /metrics (metrics): returns the Prometheus exposition of the registry.

We embed the registry state and the three handlers shallowly.  Metric values
are naturals (counters) and a rational (gauge); wall-clock time is a rational
parameter and Python's float modulo is embedded as real modulo on rationals.
The exposition document produced by generate_latest lives in the
prometheus_client library, which is not part of the repository sources, so it
is modelled from the specification of the exposition format.
-/

/-- A JSON value, as delivered to the submit handler.  A JSON object body is a
list of string-keyed fields in document order. -/
inductive Json where
  | null : Json
  | bool (b : Bool) : Json
  | num (q : ℚ) : Json
  | str (s : String) : Json
  | arr (elems : List Json) : Json
  | obj (fields : List (String × Json)) : Json

/-- The registry state: the current values of the three metrics declared at
module load (src/app/main.py lines 10-12).  Counters accumulate naturals
starting from 0; the gauge stores the last value set. -/
structure Registry where
  request_count : ℕ
  post_request_count : ℕ
  random_gauge : ℚ
deriving DecidableEq, Repr

/-- The registry at process start: both counters 0, gauge 0. -/
def initRegistry : Registry := ⟨0, 0, 0⟩

/-- Python's `%` on numbers with a positive modulus: `a % b = a - b * floor (a / b)`,
the representative in `[0, b)`.  Embeds `time.time() % 60`. -/
def pyMod (a b : ℚ) : ℚ := a - b * (⌊a / b⌋ : ℤ)

/-- The root handler (src/app/main.py lines 14-18): increments REQUEST_COUNT,
sets RANDOM_GAUGE to the current time modulo 60, and returns the greeting.
`t` is the value returned by time.time() during the call. -/
def root (t : ℚ) (s : Registry) : Registry × Json :=
  ({ s with request_count := s.request_count + 1, random_gauge := pyMod t 60 },
   Json.obj [("message", Json.str "Hello World")])

/-- An HTTPException as raised by the submit handler. -/
structure HTTPException where
  status_code : ℕ
  detail : String
deriving DecidableEq, Repr

/-- The submit handler (src/app/main.py lines 20-28) on a JSON object body
`data`.  `if not data` on a Python dict tests emptiness: an empty object is
rejected with HTTPException 400 before any metric is touched; otherwise
POST_REQUEST_COUNT is incremented and the payload is returned unchanged under
the received_data key. -/
def submit (data : List (String × Json)) (s : Registry) :
    Registry × Except HTTPException Json :=
  if data.isEmpty then
    (s, Except.error ⟨400, "No data provided"⟩)
  else
    ({ s with post_request_count := s.post_request_count + 1 },
     Except.ok (Json.obj [("received_data", Json.obj data)]))

/-- The HTTP status of a submit outcome: a normal return is served as 200, a
raised HTTPException with its status_code. -/
def statusOf : Except HTTPException Json → ℕ
  | Except.ok _ => 200
  | Except.error e => e.status_code

/-- Kind of a metric in the exposition format. -/
inductive MetricKind where
  | counter : MetricKind
  | gauge : MetricKind
deriving DecidableEq, Repr

/-- A rendered sample value: counters accumulate integers, gauges are floats. -/
inductive Value where
  | int (n : ℕ) : Value
  | float (q : ℚ) : Value
deriving DecidableEq, Repr

/-- A line of the exposition document. -/
inductive Line where
  | help (name descr : String) : Line
  | type (name : String) (kind : MetricKind) : Line
  | sample (name : String) (value : Value) : Line
deriving DecidableEq, Repr

/-- The three-line block a metric is rendered as: HELP, TYPE, then the sample
line carrying the same metric name. -/
def metricBlock (name descr : String) (kind : MetricKind) (v : Value) : List Line :=
  [Line.help name descr, Line.type name kind, Line.sample name v]

/-- Modelled from the spec: the exposition document produced by
prometheus_client.generate_latest, which is not part of the repository
sources.  Per the spec, render emits one block per declared metric in
declaration order, each block a HELP line, a TYPE line and a sample line
`name value`, counters as integers and gauges as floats. -/
def generate_latest (s : Registry) : List Line :=
  metricBlock "request_count" "Total request count" MetricKind.counter
    (Value.int s.request_count) ++
  metricBlock "post_request_count" "Total POST request count" MetricKind.counter
    (Value.int s.post_request_count) ++
  metricBlock "random_gauge" "A random gauge value" MetricKind.gauge
    (Value.float s.random_gauge)

/-- The metrics handler (src/app/main.py lines 30-32): returns the exposition
document; the registry is read, never written. -/
def metrics (s : Registry) : Registry × List Line :=
  (s, generate_latest s)

/-- One incoming request, with its argument: the time observed by root, or
the JSON object posted to submit. -/
inductive Op where
  | root (t : ℚ) : Op
  | submit (data : List (String × Json)) : Op
  | metrics : Op

/-- The registry after serving one request. -/
def step (s : Registry) : Op → Registry
  | Op.root t => (root t s).1
  | Op.submit data => (submit data s).1
  | Op.metrics => (metrics s).1

/-- The registry after serving a sequence of requests in order. -/
def run (s : Registry) (ops : List Op) : Registry :=
  ops.foldl step s

/-! ## Helper lemmas -/

theorem pyMod_nonneg (a b : ℚ) (hb : 0 < b) : 0 ≤ pyMod a b := by
  have h0 : ((⌊a / b⌋ : ℤ) : ℚ) ≤ a / b := Int.floor_le _
  have h1 : b * ((⌊a / b⌋ : ℤ) : ℚ) ≤ b * (a / b) :=
    mul_le_mul_of_nonneg_left h0 (le_of_lt hb)
  have h2 : b * (a / b) = a := mul_div_cancel₀ a (ne_of_gt hb)
  unfold pyMod
  linarith

theorem pyMod_lt (a b : ℚ) (hb : 0 < b) : pyMod a b < b := by
  have h0 : a / b < ((⌊a / b⌋ : ℤ) : ℚ) + 1 := Int.lt_floor_add_one _
  have h1 : b * (a / b) < b * (((⌊a / b⌋ : ℤ) : ℚ) + 1) :=
    mul_lt_mul_of_pos_left h0 hb
  have h2 : b * (a / b) = a := mul_div_cancel₀ a (ne_of_gt hb)
  unfold pyMod
  nlinarith

theorem step_counts (s : Registry) (op : Op) :
    ((step s op).request_count = s.request_count ∨
      (step s op).request_count = s.request_count + 1) ∧
    ((step s op).post_request_count = s.post_request_count ∨
      (step s op).post_request_count = s.post_request_count + 1) := by
  cases op with
  | root t => exact ⟨Or.inr rfl, Or.inl rfl⟩
  | submit data =>
      by_cases h : data.isEmpty <;> simp [step, submit, h]
  | metrics => exact ⟨Or.inl rfl, Or.inl rfl⟩

theorem run_counts_le (s : Registry) (ops : List Op) :
    s.request_count ≤ (run s ops).request_count ∧
    s.post_request_count ≤ (run s ops).post_request_count := by
  induction ops generalizing s with
  | nil => exact ⟨le_refl _, le_refl _⟩
  | cons op ops ih =>
      have h1 := step_counts s op
      have h2 := ih (step s op)
      have he : run s (op :: ops) = run (step s op) ops := rfl
      rw [he]
      constructor
      · have : s.request_count ≤ (step s op).request_count := by
          rcases h1.1 with h | h <;> omega
        exact le_trans this h2.1
      · have : s.post_request_count ≤ (step s op).post_request_count := by
          rcases h1.2 with h | h <;> omega
        exact le_trans this h2.2

theorem run_roots (ts : List ℚ) :
    ∀ s : Registry,
      (run s (ts.map Op.root)).request_count = s.request_count + ts.length := by
  induction ts with
  | nil => intro s; rfl
  | cons t ts ih =>
      intro s
      have he : run s ((t :: ts).map Op.root)
          = run (step s (Op.root t)) (ts.map Op.root) := rfl
      rw [he, ih]
      have hs : (step s (Op.root t)).request_count = s.request_count + 1 := rfl
      rw [hs]
      simp only [List.length_cons]
      omega

/-! ## Claim theorems -/

/-- C1: for every non-empty JSON object posted to /submit, the handler
returns status 200 with the payload echoed unchanged under received_data,
and post_request_count increases by exactly 1 while nothing else changes. -/
theorem submit_nonempty_echoes (data : List (String × Json)) (s : Registry)
    (h : data ≠ []) :
    submit data s =
      ({ s with post_request_count := s.post_request_count + 1 },
        Except.ok (Json.obj [("received_data", Json.obj data)])) ∧
    statusOf (submit data s).2 = 200 ∧
    (submit data s).1.post_request_count = s.post_request_count + 1 := by
  have hne : ¬ data.isEmpty := by
    cases data with
    | nil => exact absurd rfl h
    | cons a l => simp
  refine ⟨?_, ?_, ?_⟩ <;> simp [submit, hne, statusOf]

/-- Witness for C1: a concrete one-field object is echoed with status 200 and
the POST counter goes from 0 to 1. -/
theorem submit_nonempty_echoes_witness :
    submit [("key", Json.str "value")] initRegistry =
      ({ initRegistry with post_request_count := 1 },
        Except.ok (Json.obj
          [("received_data", Json.obj [("key", Json.str "value")])])) ∧
    statusOf (submit [("key", Json.str "value")] initRegistry).2 = 200 ∧
    (submit [("key", Json.str "value")] initRegistry).1.post_request_count =
      initRegistry.post_request_count + 1 :=
  submit_nonempty_echoes [("key", Json.str "value")] initRegistry
    (by simp)

/-- C2: posting the empty object to /submit fails with HTTP 400 and leaves
the registry — in particular post_request_count — exactly unchanged. -/
theorem submit_empty_rejected (s : Registry) :
    submit [] s = (s, Except.error ⟨400, "No data provided"⟩) ∧
    statusOf (submit [] s).2 = 400 ∧
    (submit [] s).1 = s ∧
    (submit [] s).1.post_request_count = s.post_request_count :=
  ⟨rfl, rfl, rfl, rfl⟩

/-- C3: every GET / returns the fixed Hello World body and increments
request_count by exactly 1, regardless of the prior state. -/
theorem root_greets_and_counts (t : ℚ) (s : Registry) :
    (root t s).2 = Json.obj [("message", Json.str "Hello World")] ∧
    (root t s).1.request_count = s.request_count + 1 :=
  ⟨rfl, rfl⟩

/-- C4: after any GET /, the gauge holds the wall-clock time modulo 60, a
value in the half-open interval 0 ≤ v < 60, and a subsequent scrape with no
intervening mutation reports exactly that value. -/
theorem root_gauge_in_range (t : ℚ) (s : Registry) :
    (root t s).1.random_gauge = pyMod t 60 ∧
    0 ≤ (root t s).1.random_gauge ∧
    (root t s).1.random_gauge < 60 ∧
    (metrics (root t s).1).1.random_gauge = (root t s).1.random_gauge ∧
    Line.sample "random_gauge" (Value.float (pyMod t 60))
      ∈ (metrics (root t s).1).2 :=
  ⟨rfl, pyMod_nonneg t 60 (by norm_num), pyMod_lt t 60 (by norm_num), rfl,
    by simp [metrics, generate_latest, metricBlock, root]⟩

/-- C5: both counters start at 0 and are monotone: every single request
leaves each counter unchanged or adds exactly 1, and over any sequence of
requests the counters never decrease. -/
theorem counters_monotone :
    initRegistry.request_count = 0 ∧
    initRegistry.post_request_count = 0 ∧
    (∀ (s : Registry) (op : Op),
      ((step s op).request_count = s.request_count ∨
        (step s op).request_count = s.request_count + 1) ∧
      ((step s op).post_request_count = s.post_request_count ∨
        (step s op).post_request_count = s.post_request_count + 1)) ∧
    ∀ (s : Registry) (ops : List Op),
      s.request_count ≤ (run s ops).request_count ∧
      s.post_request_count ≤ (run s ops).post_request_count :=
  ⟨rfl, rfl, step_counts, run_counts_le⟩

/-- C6: the scrape is a pure read: the metrics handler leaves the registry
state exactly unchanged, and two consecutive scrapes with no intervening
mutation return identical exposition documents. -/
theorem scrape_pure_read (s : Registry) :
    (metrics s).1 = s ∧
    step s Op.metrics = s ∧
    (metrics (metrics s).1).2 = (metrics s).2 :=
  ⟨rfl, rfl, rfl⟩

/-- C7: the exposition document is exactly one HELP/TYPE/sample triple for
each of the three declared metrics, the two counters carried as integer
values that never decrease across any interleaved requests, and the gauge
carried as a floating value. -/
theorem exposition_contents (s : Registry) (ops : List Op) :
    (metrics s).2 =
      [Line.help "request_count" "Total request count",
       Line.type "request_count" MetricKind.counter,
       Line.sample "request_count" (Value.int s.request_count),
       Line.help "post_request_count" "Total POST request count",
       Line.type "post_request_count" MetricKind.counter,
       Line.sample "post_request_count" (Value.int s.post_request_count),
       Line.help "random_gauge" "A random gauge value",
       Line.type "random_gauge" MetricKind.gauge,
       Line.sample "random_gauge" (Value.float s.random_gauge)] ∧
    s.request_count ≤ (run s ops).request_count ∧
    s.post_request_count ≤ (run s ops).post_request_count :=
  ⟨rfl, (run_counts_le s ops).1, (run_counts_le s ops).2⟩

/-- C8: every declared metric is emitted as exactly three lines in order —
HELP, TYPE, then a sample line — all three carrying the declared metric
name. -/
theorem exposition_block_shape (s : Registry) :
    (metrics s).2 =
      metricBlock "request_count" "Total request count"
        MetricKind.counter (Value.int s.request_count) ++
      metricBlock "post_request_count" "Total POST request count"
        MetricKind.counter (Value.int s.post_request_count) ++
      metricBlock "random_gauge" "A random gauge value"
        MetricKind.gauge (Value.float s.random_gauge) ∧
    ∀ (name descr : String) (kind : MetricKind) (v : Value),
      metricBlock name descr kind v =
        [Line.help name descr, Line.type name kind, Line.sample name v] :=
  ⟨rfl, fun _ _ _ _ => rfl⟩

/-- C9: serving N GET / requests — any interleaving of N concurrent callers
serializes to some order of the N atomic increments — yields request_count
exactly N when starting from the initial registry, and exactly N more than
the starting value in general: no increment is lost. -/
theorem concurrent_roots_count (s : Registry) (ts : List ℚ) :
    (run s (ts.map Op.root)).request_count = s.request_count + ts.length ∧
    (run initRegistry (ts.map Op.root)).request_count = ts.length :=
  ⟨run_roots ts s, by
    have h := run_roots ts initRegistry
    simpa [initRegistry] using h⟩

/-- C10: frame conditions: GET / never changes post_request_count, and
POST /submit — whether it succeeds or fails — never changes request_count or
random_gauge; the metrics handler changes nothing. -/
theorem handler_frame (t : ℚ) (data : List (String × Json)) (s : Registry) :
    (root t s).1.post_request_count = s.post_request_count ∧
    (submit data s).1.request_count = s.request_count ∧
    (submit data s).1.random_gauge = s.random_gauge ∧
    (metrics s).1 = s := by
  refine ⟨rfl, ?_, ?_, rfl⟩ <;>
    by_cases h : data.isEmpty <;> simp [submit, h]
